import Mathlib

/-!
Verification of PdfColorChanger against its specification.

The embedding models `src/pdf_converter/models/pdf_processor.py` and
`src/pdf_converter/models/color_schemes.py`.  Text is modelled as
`List Char`; floating point page geometry and colors are modelled as exact
rationals (all arithmetic the code performs on them is exact division by
constants and equality comparison).  PyMuPDF (`fitz`) is external: documents
are modelled by their page/line/span structure, and the effects the code
performs on handles (open / close / save) are recorded in an explicit event
trace.
-/

namespace PdfColorChanger

/-! ### Character sanitizer
`pdf_processor.py` lines 124-138: a fixed table `problematic_chars` is applied
to a span's text by successive `str.replace` calls (single-character pattern and
replacement, i.e. a character-wise substitution). -/

/-- The `problematic_chars` substitution table, verbatim from the source. -/
def problematic_chars : List (Char × Char) :=
  [('ı', 'i'),
   ('İ', 'I'),
   ('ğ', 'g'),
   ('Ğ', 'G'),
   ('ş', 's'),
   ('Ş', 'S'),
   ('–', '-'),
   ('•', '•'),
   ('’', '\'')]

/-- Python `text.replace(c, r)` for a one-character pattern and one-character
replacement: substitute every occurrence of `c` by `r`. -/
def replaceChar (s : List Char) (c r : Char) : List Char :=
  s.map (fun x => if x = c then r else x)

/-- The sanitizing loop `for problematic_char, ascii_replacement in
problematic_chars.items(): text = text.replace(...)`. -/
def sanitize (s : List Char) : List Char :=
  problematic_chars.foldl (fun t p => replaceChar t p.1 p.2) s

/-- Spec-shaped character map (§4.1 substitution table), used to compare the
source's sequential-replace implementation against the specification's
pointwise description. -/
def sanitizeChar_spec (c : Char) : Char :=
  if c = 'ı' then 'i'
  else if c = 'İ' then 'I'
  else if c = 'ğ' then 'g'
  else if c = 'Ğ' then 'G'
  else if c = 'ş' then 's'
  else if c = 'Ş' then 'S'
  else if c = '–' then '-'
  else if c = '•' then '•'
  else if c = '’' then '\''
  else c

lemma sanitize_nil : sanitize [] = [] := rfl

lemma sanitize_cons (x : Char) (xs : List Char) :
    sanitize (x :: xs) = sanitizeChar_spec x :: sanitize xs := by
  by_cases h1 : x = 'ı'
  · subst h1; simp [sanitize, problematic_chars, replaceChar, sanitizeChar_spec]
  by_cases h2 : x = 'İ'
  · subst h2; simp [sanitize, problematic_chars, replaceChar, sanitizeChar_spec]
  by_cases h3 : x = 'ğ'
  · subst h3; simp [sanitize, problematic_chars, replaceChar, sanitizeChar_spec]
  by_cases h4 : x = 'Ğ'
  · subst h4; simp [sanitize, problematic_chars, replaceChar, sanitizeChar_spec]
  by_cases h5 : x = 'ş'
  · subst h5; simp [sanitize, problematic_chars, replaceChar, sanitizeChar_spec]
  by_cases h6 : x = 'Ş'
  · subst h6; simp [sanitize, problematic_chars, replaceChar, sanitizeChar_spec]
  by_cases h7 : x = '–'
  · subst h7; simp [sanitize, problematic_chars, replaceChar, sanitizeChar_spec]
  by_cases h8 : x = '•'
  · subst h8; simp [sanitize, problematic_chars, replaceChar, sanitizeChar_spec]
  by_cases h9 : x = '’'
  · subst h9; simp [sanitize, problematic_chars, replaceChar, sanitizeChar_spec]
  · simp [sanitize, problematic_chars, replaceChar, sanitizeChar_spec,
      h1, h2, h3, h4, h5, h6, h7, h8, h9]

lemma sanitize_eq_map (s : List Char) : sanitize s = s.map sanitizeChar_spec := by
  induction s with
  | nil => rfl
  | cons x xs ih => rw [sanitize_cons, ih, List.map_cons]

lemma sanitizeChar_spec_idem (c : Char) :
    sanitizeChar_spec (sanitizeChar_spec c) = sanitizeChar_spec c := by
  by_cases h1 : c = 'ı'
  · subst h1; decide
  by_cases h2 : c = 'İ'
  · subst h2; decide
  by_cases h3 : c = 'ğ'
  · subst h3; decide
  by_cases h4 : c = 'Ğ'
  · subst h4; decide
  by_cases h5 : c = 'ş'
  · subst h5; decide
  by_cases h6 : c = 'Ş'
  · subst h6; decide
  by_cases h7 : c = '–'
  · subst h7; decide
  by_cases h8 : c = '•'
  · subst h8; decide
  by_cases h9 : c = '’'
  · subst h9; decide
  · simp [sanitizeChar_spec, h1, h2, h3, h4, h5, h6, h7, h8, h9]

/-! ### Layout data model
The extracted text dictionary (`get_text("dict")` / `textpage.extractDICT()`):
blocks, lines, spans.  A block without a `"lines"` key is a non-text (image)
block. -/

/-- Python truthiness of `text.strip()`: true iff the text contains a
non-whitespace character. -/
def stripNonempty (s : List Char) : Bool :=
  s.any (fun c => !c.isWhitespace)

/-- A text span: `span["text"]`, `span["bbox"]` (x0, y0, x1, y1), `span["size"]`. -/
structure Span where
  text : List Char
  bbox : ℚ × ℚ × ℚ × ℚ
  size : ℚ
deriving DecidableEq

/-- A line: `line["spans"]`. -/
structure Line where
  spans : List Span
deriving DecidableEq

/-- A block of the extraction dictionary: text blocks carry `"lines"`, image
blocks lack them. -/
inductive Block where
  | text (lines : List Line)
  | image
deriving DecidableEq

/-- A source page: its rectangle's width and height and its extracted blocks. -/
structure Page where
  width : ℚ
  height : ℚ
  blocks : List Block
deriving DecidableEq

/-- A document: an ordered sequence of pages. -/
structure Doc where
  pages : List Page
deriving DecidableEq

/-! ### Color schemes (`color_schemes.py`) -/

/-- `hex_to_rgb`'s digit parsing via Python `int(_, 16)`. -/
def hexVal (c : Char) : ℕ :=
  if '0' ≤ c ∧ c ≤ '9' then c.toNat - '0'.toNat
  else if 'a' ≤ c ∧ c ≤ 'f' then c.toNat - 'a'.toNat + 10
  else if 'A' ≤ c ∧ c ≤ 'F' then c.toNat - 'A'.toNat + 10
  else 0

/-- `int(hex_color[i:i+2], 16)`. -/
def hexByte (c0 c1 : Char) : ℕ := 16 * hexVal c0 + hexVal c1

/-- `hex_to_rgb`: strip leading `#`, parse three byte pairs, divide by 255.0. -/
def hex_to_rgb (s : String) : ℚ × ℚ × ℚ :=
  let h := s.toList.dropWhile (· = '#')
  ((hexByte (h.getD 0 '0') (h.getD 1 '0') : ℚ) / 255,
   (hexByte (h.getD 2 '0') (h.getD 3 '0') : ℚ) / 255,
   (hexByte (h.getD 4 '0') (h.getD 5 '0') : ℚ) / 255)

/-- One entry of `COLOR_SCHEMES`. -/
structure ColorScheme where
  name : String
  description : String
  background_hex : String
  text_hex : String
  background_rgb : ℚ × ℚ × ℚ
  text_rgb : ℚ × ℚ × ℚ
  contrast_ratio : ℚ
deriving DecidableEq

/-- The `COLOR_SCHEMES` dictionary (insertion order preserved). -/
def COLOR_SCHEMES : List (String × ColorScheme) :=
  [("Dark Mode",
    { name := "Dark Mode",
      description := "Dark background for low light reading",
      background_hex := "#2D2D2D",
      text_hex := "#FFFFFF",
      background_rgb := hex_to_rgb "#2D2D2D",
      text_rgb := hex_to_rgb "#FFFFFF",
      contrast_ratio := 134 / 10 }),
   ("Sepia",
    { name := "Sepia Reading",
      description := "Warm brown/beige background - easy on the eyes",
      background_hex := "#DEB887",
      text_hex := "#8B4513",
      background_rgb := hex_to_rgb "#DEB887",
      text_rgb := hex_to_rgb "#8B4513",
      contrast_ratio := 82 / 10 }),
   ("High Contrast",
    { name := "High Contrast",
      description := "Black text on white background - maximum readability",
      background_hex := "#FFFFFF",
      text_hex := "#000000",
      background_rgb := hex_to_rgb "#FFFFFF",
      text_rgb := hex_to_rgb "#000000",
      contrast_ratio := 21 }),
   ("Green Tint",
    { name := "Green Tint",
      description := "Light green background - gentle on the eyes",
      background_hex := "#E6F3E6",
      text_hex := "#2D5A2D",
      background_rgb := hex_to_rgb "#E6F3E6",
      text_rgb := hex_to_rgb "#2D5A2D",
      contrast_ratio := 91 / 10 })]

/-- `get_scheme`: `COLOR_SCHEMES.get(name)`. -/
def get_scheme (name : String) : Option ColorScheme :=
  (COLOR_SCHEMES.find? (fun p => p.1 = name)).map Prod.snd

/-- `get_scheme_names`: `list(COLOR_SCHEMES.keys())`. -/
def get_scheme_names : List String := COLOR_SCHEMES.map Prod.fst

/-! ### Page reconstruction (`convert_colors`, lines 71-175)
A successful `new_page.insert_text(...)` call is recorded as a `TextOp`; the
environment decides which insertion calls raise (`insertOk`). -/

/-- One `insert_text` call: position, text, fontsize, color. -/
structure TextOp where
  pos : ℚ × ℚ
  text : List Char
  fontsize : ℚ
  color : ℚ × ℚ × ℚ
deriving DecidableEq

/-- An output page: dimensions, the full-page background fill drawn by
`draw_rect`, and the successful text insertions in emission order. -/
structure OutPage where
  width : ℚ
  height : ℚ
  background : ℚ × ℚ × ℚ
  ops : List TextOp
deriving DecidableEq

/-- The per-span scanning loop of lines 115-148: accumulates
`line_text_parts` (sanitized texts of spans whose raw text strips non-empty),
records the first such span's `bbox` into `line_bbox` and its `size` into
`line_fontsize` (initialized `None` and `12`). -/
def lineScanStep (st : List (List Char) × Option (ℚ × ℚ × ℚ × ℚ) × ℚ)
    (span : Span) : List (List Char) × Option (ℚ × ℚ × ℚ × ℚ) × ℚ :=
  if stripNonempty span.text then
    match st with
    | (parts, none, _) => (parts ++ [sanitize span.text], some span.bbox, span.size)
    | (parts, some b, fsz) => (parts ++ [sanitize span.text], some b, fsz)
  else st

/-- The state of `line_text_parts`, `line_bbox`, `line_fontsize` after the
span loop. -/
def lineScan (spans : List Span) : List (List Char) × Option (ℚ × ℚ × ℚ × ℚ) × ℚ :=
  spans.foldl lineScanStep ([], none, 12)

/-- The fallback `insert_text` call for one span (lines 168-173): raw
(unsanitized) span text at the span's own bbox origin with the span's own
size. -/
def spanFallbackOp (tc : ℚ × ℚ × ℚ) (span : Span) : TextOp :=
  { pos := (span.bbox.1, span.bbox.2.1), text := span.text,
    fontsize := span.size, color := tc }

/-- Lines 109-175: process one line.  If the single-run insertion of the
concatenated sanitized parts raises (`insertOk` false), fall back to per-span
insertion of the raw span texts, skipping spans whose insertion raises. -/
def processLine (insertOk : TextOp → Bool) (tc : ℚ × ℚ × ℚ) (line : Line) :
    List TextOp :=
  match lineScan line.spans with
  | (parts, some b, fsize) =>
    if parts.isEmpty then []
    else
      let op : TextOp :=
        { pos := (b.1, b.2.1), text := parts.flatten, fontsize := fsize, color := tc }
      if insertOk op then [op]
      else
        line.spans.filterMap (fun span =>
          if stripNonempty span.text then
            if insertOk (spanFallbackOp tc span) then some (spanFallbackOp tc span)
            else none
          else none)
  | (_, none, _) => []

/-- Lines 107-108: an image block (no `"lines"` key) is skipped entirely. -/
def processBlock (insertOk : TextOp → Bool) (tc : ℚ × ℚ × ℚ) :
    Block → List TextOp
  | .text lines => (lines.map (processLine insertOk tc)).flatten
  | .image => []

/-- Lines 100-104: `text_color` selection — scheme-identity based. -/
def text_color (scheme_name : String) (scheme : ColorScheme) : ℚ × ℚ × ℚ :=
  if scheme_name = "Dark Mode" then scheme.text_rgb else (0, 0, 0)

/-- Lines 71-175: build one output page — same dimensions, background fill of
the scheme's background, then the text operations of every block. -/
def processPage (insertOk : TextOp → Bool) (scheme_name : String)
    (scheme : ColorScheme) (p : Page) : OutPage :=
  { width := p.width, height := p.height,
    background := scheme.background_rgb,
    ops := (p.blocks.map (processBlock insertOk (text_color scheme_name scheme))).flatten }

/-! ### The processor and its effects on document handles -/

/-- `PDFProcessor`'s state: `self.current_doc`, `self.current_path`. -/
structure Processor where
  current_doc : Option Doc
  current_path : Option String
deriving DecidableEq

/-- Handle / file events performed by `convert_colors`, in order. -/
inductive Ev where
  | openSource
  | openNew
  | closeSource
  | closeNew
  | saveFile (path : String)
deriving DecidableEq

/-- The exceptions `convert_colors` raises. -/
inductive ConvErr where
  | noDocument
  | unknownScheme (name : String)
  | conversionFailed
deriving DecidableEq

/-- Line 184: `if 'doc_copy' in locals():`.  No variable named `doc_copy` is
ever bound anywhere in `convert_colors` (the open handles are named
`source_doc` and `new_doc`), so this test is constantly false. -/
def doc_copy_in_locals : Bool := false

/-- Effect events performed by `open_pdf`, in order. -/
inductive OpenEv where
  | closedPrevious
  | openedNew
deriving DecidableEq

/-- `open_pdf` (lines 16-26): close the current document if one is open, then
open the path.  `fs` maps a path to the document stored there (`none` when
`fitz.open` would raise). -/
def open_pdf (proc : Processor) (fs : String → Option Doc) (file_path : String) :
    Except String Processor × List OpenEv :=
  let closeEvs : List OpenEv :=
    match proc.current_doc with
    | some _ => [.closedPrevious]
    | none => []
  match fs file_path with
  | some d => (.ok { current_doc := some d, current_path := some file_path },
               closeEvs ++ [.openedNew])
  | none => (.error "Could not open PDF", closeEvs)

/-- `get_preview_image` (lines 41-53): `None` when no document is loaded or
`page_num >= len(self.current_doc)`; otherwise the page rasterized at zoom
`dpi / 72` (rasterization itself is PyMuPDF's, so the image is modelled as the
page together with the zoom factor). -/
def get_preview_image (proc : Processor) (page_num : ℕ) (dpi : ℚ) :
    Option (Page × ℚ) :=
  match proc.current_doc with
  | none => none
  | some d =>
    if page_num ≥ d.pages.length then none
    else some (d.pages.getD page_num { width := 0, height := 0, blocks := [] }, dpi / 72)

/-- `convert_colors` (lines 55-186).  `fs` maps paths to stored documents
(`fitz.open(self.current_path)` re-opens the stored path, raising when `fs`
yields `none`); `saveOk` is whether `new_doc.save(output_path)` succeeds;
`insertOk` is whether a given `insert_text` call succeeds.  Returns the
result — the recolored pages on success, the raised exception otherwise —
paired with the trace of handle/file events.  On the exception path the
handler only runs `if 'doc_copy' in locals(): doc_copy.close()`
(`doc_copy_in_locals`), so no opened handle is closed there. -/
def convert_colors (proc : Processor) (fs : String → Option Doc) (saveOk : Bool)
    (insertOk : TextOp → Bool) (scheme_name output_path : String) :
    Except ConvErr (List OutPage) × List Ev :=
  match proc.current_doc with
  | none => (.error .noDocument, [])
  | some _ =>
    match get_scheme scheme_name with
    | none => (.error (.unknownScheme scheme_name), [])
    | some scheme =>
      match proc.current_path.bind fs with
      | none =>
        -- `fitz.open(self.current_path)` raised: no handle was opened, and the
        -- handler's `doc_copy` test is false, so nothing is closed.
        (.error .conversionFailed, [])
      | some source_doc =>
        let outPages := source_doc.pages.map (processPage insertOk scheme_name scheme)
        if saveOk then
          (.ok outPages,
           [.openSource, .openNew, .saveFile output_path, .closeNew, .closeSource])
        else
          -- `new_doc.save` raised after both handles were opened; the handler
          -- closes a handle only if `doc_copy` were a local, which it never is.
          (.error .conversionFailed,
           [.openSource, .openNew] ++
             (if doc_copy_in_locals then [.closeSource] else []))

/-- `is_valid_pdf` (lines 188-195): open-and-close round trip, `False` on any
failure. -/
def is_valid_pdf (fs : String → Option Doc) (file_path : String) : Bool :=
  (fs file_path).isSome

/-! ### Characterization of the span-scanning loop -/

lemma foldl_lineScanStep_some (spans : List Span) (parts : List (List Char))
    (b : ℚ × ℚ × ℚ × ℚ) (fsz : ℚ) :
    spans.foldl lineScanStep (parts, some b, fsz) =
      (parts ++ (spans.filter (fun s => stripNonempty s.text)).map
        (fun s => sanitize s.text), some b, fsz) := by
  induction spans generalizing parts with
  | nil => simp
  | cons s ss ih =>
    by_cases h : stripNonempty s.text
    · simp [List.foldl_cons, lineScanStep, h, ih, List.filter_cons]
    · simp [List.foldl_cons, lineScanStep, h, ih, List.filter_cons]

lemma foldl_lineScanStep_none (spans : List Span) (parts : List (List Char))
    (d : ℚ) :
    spans.foldl lineScanStep (parts, none, d) =
      match spans.filter (fun s => stripNonempty s.text) with
      | [] => (parts, none, d)
      | s0 :: rest =>
        (parts ++ ((s0 :: rest).map (fun s => sanitize s.text)), some s0.bbox, s0.size) := by
  induction spans generalizing parts d with
  | nil => simp
  | cons s ss ih =>
    by_cases h : stripNonempty s.text
    · rw [List.foldl_cons]
      have hstep : lineScanStep (parts, none, d) s =
          (parts ++ [sanitize s.text], some s.bbox, s.size) := by
        simp [lineScanStep, h]
      rw [hstep, foldl_lineScanStep_some]
      simp [List.filter_cons, h, List.append_assoc]
    · rw [List.foldl_cons]
      have hstep : lineScanStep (parts, none, d) s = (parts, none, d) := by
        simp [lineScanStep, h]
      rw [hstep, ih]
      simp [List.filter_cons, h]

/-- `lineScan` computes: the sanitized texts of the spans whose raw text strips
non-empty, and the bbox and size of the first such span. -/
lemma lineScan_eq (spans : List Span) :
    lineScan spans =
      match spans.filter (fun s => stripNonempty s.text) with
      | [] => ([], none, 12)
      | s0 :: rest =>
        ((s0 :: rest).map (fun s => sanitize s.text), some s0.bbox, s0.size) := by
  rw [lineScan, foldl_lineScanStep_none]
  cases spans.filter (fun s => stripNonempty s.text) <;> simp

/-- The fallback filterMap, re-expressed: the non-empty spans' fallback ops,
keeping those whose insertion succeeds. -/
lemma filterMap_fallback (spans : List Span) (tc : ℚ × ℚ × ℚ)
    (insertOk : TextOp → Bool) :
    spans.filterMap (fun span =>
        if stripNonempty span.text then
          if insertOk (spanFallbackOp tc span) then some (spanFallbackOp tc span)
          else none
        else none) =
      ((spans.filter (fun s => stripNonempty s.text)).map (spanFallbackOp tc)).filter
        (fun op => insertOk op) := by
  induction spans with
  | nil => rfl
  | cons s ss ih =>
    by_cases h : stripNonempty s.text
    · by_cases h2 : insertOk (spanFallbackOp tc s) <;>
        simp [List.filterMap_cons, List.filter_cons, h, h2, ih]
    · simp [List.filterMap_cons, List.filter_cons, h, ih]

/-- Every operation emitted by `processLine` carries the selected text color. -/
lemma processLine_color (insertOk : TextOp → Bool) (tc : ℚ × ℚ × ℚ) (line : Line) :
    ∀ op ∈ processLine insertOk tc line, op.color = tc := by
  intro op hop
  rw [processLine, lineScan_eq] at hop
  rcases hfil : line.spans.filter (fun s => stripNonempty s.text) with _ | ⟨s0, rest⟩
  · rw [hfil] at hop; simp at hop
  · rw [hfil] at hop
    split at hop
    · split at hop
      · simp at hop
      · dsimp only at hop
        split at hop
        · simp only [List.mem_singleton] at hop
          subst hop; rfl
        · rw [filterMap_fallback] at hop
          simp only [List.mem_filter, List.mem_map] at hop
          obtain ⟨⟨span, _, rfl⟩, -⟩ := hop
          rfl
    · simp at hop

/-- Every operation emitted by `processBlock` carries the selected text color. -/
lemma processBlock_color (insertOk : TextOp → Bool) (tc : ℚ × ℚ × ℚ) (b : Block) :
    ∀ op ∈ processBlock insertOk tc b, op.color = tc := by
  intro op hop
  cases b with
  | text lines =>
    simp only [processBlock, List.mem_flatten, List.mem_map] at hop
    obtain ⟨l, ⟨line, _, rfl⟩, hmem⟩ := hop
    exact processLine_color insertOk tc line op hmem
  | image => simp [processBlock] at hop

/-- Every operation on a processed page carries the selected text color. -/
lemma processPage_color (insertOk : TextOp → Bool) (scheme_name : String)
    (scheme : ColorScheme) (p : Page) :
    ∀ op ∈ (processPage insertOk scheme_name scheme p).ops,
      op.color = text_color scheme_name scheme := by
  intro op hop
  simp only [processPage, List.mem_flatten, List.mem_map] at hop
  obtain ⟨l, ⟨blk, _, rfl⟩, hmem⟩ := hop
  exact processBlock_color insertOk (text_color scheme_name scheme) blk op hmem

lemma sanitizeChar_spec_ne (x : Char) :
    sanitizeChar_spec x ≠ 'ı' ∧ sanitizeChar_spec x ≠ 'İ' ∧
    sanitizeChar_spec x ≠ 'ğ' ∧ sanitizeChar_spec x ≠ 'Ğ' ∧
    sanitizeChar_spec x ≠ 'ş' ∧ sanitizeChar_spec x ≠ 'Ş' ∧
    sanitizeChar_spec x ≠ '–' ∧ sanitizeChar_spec x ≠ '’' := by
  unfold sanitizeChar_spec
  split_ifs <;> refine ⟨?_, ?_, ?_, ?_, ?_, ?_, ?_, ?_⟩ <;>
    first | decide | assumption

/-- C5: the Character Sanitizer maps each of the nine tabled code points
(U+0131, U+0130, U+011F, U+011E, U+015F, U+015E, U+2013, U+2022, U+2019) to its
replacement (i, I, g, G, s, S, -, • unchanged, ') and passes every other code
point through unchanged — `sanitize` equals the pointwise table map — and for
every mapped code point whose replacement differs from it, the original no
longer occurs in the output. -/
theorem C5_sanitizer_table (s : List Char) :
    sanitize s = s.map sanitizeChar_spec ∧
    'ı' ∉ sanitize s ∧ 'İ' ∉ sanitize s ∧ 'ğ' ∉ sanitize s ∧ 'Ğ' ∉ sanitize s ∧
    'ş' ∉ sanitize s ∧ 'Ş' ∉ sanitize s ∧ '–' ∉ sanitize s ∧ '’' ∉ sanitize s := by
  refine ⟨sanitize_eq_map s, ?_, ?_, ?_, ?_, ?_, ?_, ?_, ?_⟩ <;>
  · rw [sanitize_eq_map]
    intro hmem
    obtain ⟨x, -, hx⟩ := List.mem_map.mp hmem
    have h := sanitizeChar_spec_ne x
    tauto

/-- C6: the Character Sanitizer is idempotent — applying `sanitize` twice
yields the same result as applying it once. -/
theorem C6_sanitize_idempotent (s : List Char) :
    sanitize (sanitize s) = sanitize s := by
  induction s with
  | nil => rfl
  | cons x xs ih => rw [sanitize_cons, sanitize_cons, sanitizeChar_spec_idem, ih]

/-- C4: on the primary path (the single-run insertion succeeds), the line is
drawn as one text operation whose text is the concatenation of the sanitized
texts of all the line's non-empty spans, positioned at the bounding-box origin
of the first non-empty span with that span's font size. -/
theorem C4_primary_line (insertOk : TextOp → Bool) (tc : ℚ × ℚ × ℚ) (line : Line)
    (s0 : Span) (rest : List Span)
    (hfilter : line.spans.filter (fun s => stripNonempty s.text) = s0 :: rest)
    (hok : insertOk
        { pos := (s0.bbox.1, s0.bbox.2.1),
          text := ((s0 :: rest).map (fun s => sanitize s.text)).flatten,
          fontsize := s0.size, color := tc } = true) :
    processLine insertOk tc line =
      [{ pos := (s0.bbox.1, s0.bbox.2.1),
         text := ((s0 :: rest).map (fun s => sanitize s.text)).flatten,
         fontsize := s0.size, color := tc }] := by
  rw [processLine, lineScan_eq, hfilter]
  dsimp only
  rw [if_neg (by simp)]
  rw [if_pos (show _ = true by simpa using hok)]

/-- Claim C4 witness: the primary path at a concrete one-span line. -/
theorem C4_witness :
    processLine (fun _ => true) (0, 0, 0)
        { spans := [{ text := ['a'], bbox := (1, 2, 3, 4), size := 10 }] } =
      [{ pos := ((1 : ℚ), (2 : ℚ)),
         text := (([({ text := ['a'], bbox := (1, 2, 3, 4), size := 10 } : Span)].map
           (fun s => sanitize s.text)).flatten),
         fontsize := 10, color := (0, 0, 0) }] :=
  C4_primary_line (fun _ => true) (0, 0, 0)
    { spans := [{ text := ['a'], bbox := (1, 2, 3, 4), size := 10 }] }
    { text := ['a'], bbox := (1, 2, 3, 4), size := 10 } [] (by decide) rfl

/-- Claim C2 counterexample: a one-span line whose text is the single dotless-i
code point U+0131, under an insertion environment where only the raw text
succeeds.  The single-run insertion (sanitized text "i") fails, and the
fallback emits the span's RAW text U+0131 — not its sanitized form — so the
fallback does not sanitize the span's text as the claim states. -/
theorem C2_counterexample :
    processLine (fun op => decide (op.text = ['ı'])) (0, 0, 0)
        { spans := [{ text := ['ı'], bbox := (5, 7, 9, 11), size := 12 }] } =
      [{ pos := (5, 7), text := ['ı'], fontsize := 12, color := (0, 0, 0) }] ∧
    sanitize ['ı'] = ['i'] := by
  decide

/-- C2 (amended): for every line whose single-run insertion fails, the
fallback draws each non-empty span independently at that span's own
bounding-box origin with that span's own font size and the span's RAW
(unsanitized) text; any span whose individual insertion also fails is silently
skipped, and the page is never aborted (the result is the filtered list, never
an error). -/
theorem C2_amended_fallback (insertOk : TextOp → Bool) (tc : ℚ × ℚ × ℚ)
    (line : Line) (s0 : Span) (rest : List Span)
    (hfilter : line.spans.filter (fun s => stripNonempty s.text) = s0 :: rest)
    (hfail : insertOk
        { pos := (s0.bbox.1, s0.bbox.2.1),
          text := ((s0 :: rest).map (fun s => sanitize s.text)).flatten,
          fontsize := s0.size, color := tc } = false) :
    processLine insertOk tc line =
      ((line.spans.filter (fun s => stripNonempty s.text)).map (spanFallbackOp tc)).filter
        (fun op => insertOk op) := by
  rw [processLine, lineScan_eq, hfilter]
  dsimp only
  rw [if_neg (by simp)]
  have hfail2 := hfail
  simp only [List.map_cons, List.flatten_cons] at hfail2
  rw [if_neg (by simp [hfail2])]
  rw [filterMap_fallback, hfilter]

/-- Claim C2 witness: the fallback at a concrete one-span line where every
insertion fails — the span is skipped and the page still completes. -/
theorem C2_witness :
    processLine (fun _ => false) (0, 0, 0)
        { spans := [{ text := ['ı'], bbox := (5, 7, 9, 11), size := 12 }] } =
      ((({ spans := [{ text := ['ı'], bbox := (5, 7, 9, 11), size := 12 }] } :
            Line).spans.filter (fun s => stripNonempty s.text)).map
          (spanFallbackOp (0, 0, 0))).filter (fun op => (fun _ => false) op) :=
  C2_amended_fallback (fun _ => false) (0, 0, 0)
    { spans := [{ text := ['ı'], bbox := (5, 7, 9, 11), size := 12 }] }
    { text := ['ı'], bbox := (5, 7, 9, 11), size := 12 } [] (by decide) rfl

/-- C1: the claim says every conversion run releases both opened document
handles (source copy and new document) regardless of success or failure.  The
code violates it: this concrete failing run (the save of the output raises)
surfaces the conversion error while neither the source copy nor the new
document is ever closed — the handler only checks the never-bound local
`doc_copy`. -/
theorem C1_failing_run_leaves_handles_open :
    (convert_colors ⟨some (Doc.mk []), some "in.pdf"⟩ (fun _ => some (Doc.mk []))
        false (fun _ => true) "Sepia" "out.pdf").1 = .error .conversionFailed ∧
    Ev.openSource ∈ (convert_colors ⟨some (Doc.mk []), some "in.pdf"⟩
        (fun _ => some (Doc.mk [])) false (fun _ => true) "Sepia" "out.pdf").2 ∧
    Ev.openNew ∈ (convert_colors ⟨some (Doc.mk []), some "in.pdf"⟩
        (fun _ => some (Doc.mk [])) false (fun _ => true) "Sepia" "out.pdf").2 ∧
    Ev.closeSource ∉ (convert_colors ⟨some (Doc.mk []), some "in.pdf"⟩
        (fun _ => some (Doc.mk [])) false (fun _ => true) "Sepia" "out.pdf").2 ∧
    Ev.closeNew ∉ (convert_colors ⟨some (Doc.mk []), some "in.pdf"⟩
        (fun _ => some (Doc.mk [])) false (fun _ => true) "Sepia" "out.pdf").2 := by
  refine ⟨rfl, ?_, ?_, ?_, ?_⟩ <;> decide

/-- C3: a successful conversion produces one output page per source page, in
order, and each output page's width and height exactly equal the corresponding
source page's. -/
theorem C3_page_count_and_dims (proc : Processor) (fs : String → Option Doc)
    (saveOk : Bool) (insertOk : TextOp → Bool) (scheme_name output_path : String)
    (pages : List OutPage) (src : Doc)
    (hsrc : proc.current_path.bind fs = some src)
    (hok : (convert_colors proc fs saveOk insertOk scheme_name output_path).1 =
      .ok pages) :
    pages.length = src.pages.length ∧
    pages.map (fun p => (p.width, p.height)) =
      src.pages.map (fun p => (p.width, p.height)) := by
  rw [convert_colors] at hok
  cases hdoc : proc.current_doc with
  | none => rw [hdoc] at hok; simp at hok
  | some d =>
    rw [hdoc] at hok
    cases hsch : get_scheme scheme_name with
    | none => rw [hsch] at hok; simp at hok
    | some scheme =>
      rw [hsch, hsrc] at hok
      cases saveOk with
      | false => simp at hok
      | true =>
        have hpages : src.pages.map (processPage insertOk scheme_name scheme) =
            pages := by simpa using hok
        subst hpages
        refine ⟨by simp, ?_⟩
        simp only [List.map_map]
        rfl

/-- Claim C3 witness: a one-page source converts to a one-page output with the
same dimensions. -/
theorem C3_witness :
    ([{ width := 100, height := 200, background := hex_to_rgb "#DEB887",
        ops := [] }] : List OutPage).length =
      (Doc.mk [{ width := 100, height := 200, blocks := [] }]).pages.length ∧
    ([{ width := 100, height := 200, background := hex_to_rgb "#DEB887",
        ops := [] }] : List OutPage).map (fun p => (p.width, p.height)) =
      (Doc.mk [{ width := 100, height := 200, blocks := [] }]).pages.map
        (fun p => (p.width, p.height)) :=
  C3_page_count_and_dims
    ⟨some (Doc.mk [{ width := 100, height := 200, blocks := [] }]), some "in.pdf"⟩
    (fun _ => some (Doc.mk [{ width := 100, height := 200, blocks := [] }]))
    true (fun _ => true) "Sepia" "out.pdf"
    [{ width := 100, height := 200, background := hex_to_rgb "#DEB887", ops := [] }]
    (Doc.mk [{ width := 100, height := 200, blocks := [] }]) rfl rfl

/-- C7: on every page of a successful conversion, every text insertion's color
is determined solely by scheme identity: the "Dark Mode" scheme yields its
designated light text color — white, (1,1,1) — and every other scheme yields
pure black (0,0,0), regardless of the scheme's stored text color. -/
theorem C7_text_color_binary (proc : Processor) (fs : String → Option Doc)
    (saveOk : Bool) (insertOk : TextOp → Bool) (scheme_name output_path : String)
    (pages : List OutPage) (scheme : ColorScheme)
    (hsch : get_scheme scheme_name = some scheme)
    (hok : (convert_colors proc fs saveOk insertOk scheme_name output_path).1 =
      .ok pages) :
    ∀ p ∈ pages, ∀ op ∈ p.ops,
      op.color = if scheme_name = "Dark Mode" then scheme.text_rgb
        else ((0 : ℚ), 0, 0) := by
  rw [convert_colors] at hok
  cases hdoc : proc.current_doc with
  | none => rw [hdoc] at hok; simp at hok
  | some d =>
    rw [hdoc, hsch] at hok
    cases hsrc : proc.current_path.bind fs with
    | none => rw [hsrc] at hok; simp at hok
    | some src =>
      rw [hsrc] at hok
      cases saveOk with
      | false => simp at hok
      | true =>
        have hpages : src.pages.map (processPage insertOk scheme_name scheme) =
            pages := by simpa using hok
        intro p hp op hop
        rw [← hpages] at hp
        obtain ⟨q, -, rfl⟩ := List.mem_map.mp hp
        have hcol := processPage_color insertOk scheme_name scheme q op hop
        rw [hcol, text_color]

/-- Claim C7 witness: a "Dark Mode" conversion of a one-span page inserts its
text in the scheme's designated light text color (white, `#FFFFFF`). -/
theorem C7_witness :
    (TextOp.mk ((1 : ℚ), (2 : ℚ)) ['a'] 10 (hex_to_rgb "#FFFFFF")).color =
      if "Dark Mode" = "Dark Mode"
        then (ColorScheme.mk "Dark Mode" "Dark background for low light reading"
          "#2D2D2D" "#FFFFFF" (hex_to_rgb "#2D2D2D") (hex_to_rgb "#FFFFFF")
          (134 / 10)).text_rgb
        else ((0 : ℚ), 0, 0) :=
  C7_text_color_binary
    ⟨some (Doc.mk [⟨100, 200,
        [Block.text [⟨[⟨['a'], (1, 2, 3, 4), 10⟩]⟩]]⟩]), some "in.pdf"⟩
    (fun _ => some (Doc.mk [⟨100, 200,
        [Block.text [⟨[⟨['a'], (1, 2, 3, 4), 10⟩]⟩]]⟩]))
    true (fun _ => true) "Dark Mode" "out.pdf"
    [⟨100, 200, hex_to_rgb "#2D2D2D",
        [⟨((1 : ℚ), (2 : ℚ)), ['a'], 10, hex_to_rgb "#FFFFFF"⟩]⟩]
    (ColorScheme.mk "Dark Mode" "Dark background for low light reading"
      "#2D2D2D" "#FFFFFF" (hex_to_rgb "#2D2D2D") (hex_to_rgb "#FFFFFF")
      (134 / 10)) rfl rfl
    ⟨100, 200, hex_to_rgb "#2D2D2D",
      [⟨((1 : ℚ), (2 : ℚ)), ['a'], 10, hex_to_rgb "#FFFFFF"⟩]⟩
    (List.Mem.head _)
    ⟨((1 : ℚ), (2 : ℚ)), ['a'], 10, hex_to_rgb "#FFFFFF"⟩
    (List.Mem.head _)

/-- C8: when a document is loaded and the requested scheme identifier has no
registry entry, `convert_colors` surfaces the unknown-scheme failure with an
empty effect trace: no source copy is opened, no page is processed, no output
file is created. -/
theorem C8_unknown_scheme_no_processing (proc : Processor) (fs : String → Option Doc)
    (saveOk : Bool) (insertOk : TextOp → Bool) (scheme_name output_path : String)
    (d : Doc) (hdoc : proc.current_doc = some d)
    (hsch : get_scheme scheme_name = none) :
    convert_colors proc fs saveOk insertOk scheme_name output_path =
      (.error (.unknownScheme scheme_name), []) := by
  rw [convert_colors, hdoc, hsch]

/-- Claim C8 witness: an unregistered identifier fails with no effects. -/
theorem C8_witness :
    convert_colors { current_doc := some (Doc.mk []), current_path := some "in.pdf" }
        (fun _ => some (Doc.mk [])) true (fun _ => true) "Solarized" "out.pdf" =
      (.error (.unknownScheme "Solarized"), []) :=
  C8_unknown_scheme_no_processing _ _ _ _ _ _ (Doc.mk []) rfl rfl

/-- C9: with a document open, the preview query returns the absence value for
every page index at or beyond the page count. -/
theorem C9_preview_out_of_range (proc : Processor) (d : Doc) (page_num : ℕ)
    (dpi : ℚ) (hdoc : proc.current_doc = some d)
    (hrange : d.pages.length ≤ page_num) :
    get_preview_image proc page_num dpi = none := by
  rw [get_preview_image, hdoc]
  simp [hrange]

/-- Claim C9 witness: previewing page 0 of an empty document yields `none`. -/
theorem C9_witness :
    get_preview_image ⟨some (Doc.mk []), some "in.pdf"⟩ 0 150 = none :=
  C9_preview_out_of_range _ (Doc.mk []) 0 150 rfl (Nat.le_refl 0)

/-- C10: a call to `open_pdf` while a document is already open closes the
previous document before opening the new path, and on success `current_doc`
and `current_path` refer to the newly opened file — the processor holds at
most one open document. -/
theorem C10_open_pdf_single_doc (proc : Processor) (fs : String → Option Doc)
    (file_path : String) (d0 d : Doc)
    (hprev : proc.current_doc = some d0)
    (hopen : fs file_path = some d) :
    (open_pdf proc fs file_path).2 = [.closedPrevious, .openedNew] ∧
    (open_pdf proc fs file_path).1 =
      .ok { current_doc := some d, current_path := some file_path } := by
  refine ⟨?_, ?_⟩ <;> · rw [open_pdf, hprev, hopen]; try rfl

/-- Claim C10 witness: re-opening over an open document closes it first and
repoints the state. -/
theorem C10_witness :
    (open_pdf { current_doc := some (Doc.mk []), current_path := some "old.pdf" }
        (fun _ => some (Doc.mk [])) "new.pdf").2 =
      [.closedPrevious, .openedNew] ∧
    (open_pdf { current_doc := some (Doc.mk []), current_path := some "old.pdf" }
        (fun _ => some (Doc.mk [])) "new.pdf").1 =
      .ok { current_doc := some (Doc.mk []), current_path := some "new.pdf" } :=
  C10_open_pdf_single_doc _ _ "new.pdf" (Doc.mk []) (Doc.mk []) rfl rfl

end PdfColorChanger
